import Mathlib

/-!
Verification of the kick.py event-ingestion core: the Pusher websocket read
loop (`kick/ws.py`), the lazily evaluated message data model
(`kick/message.py`) and their payload accessors, shallowly embedded in Lean.
Raw JSON payloads are modelled by the inductive type `J`; Python dict access
and truthiness are translated field by field from the source.
-/

/-- A JSON-like value, the shape of the decoded payloads the library wraps
(`self._data` in `kick/message.py`). Dicts are association lists. -/
inductive J where
  | null
  | bool (b : Bool)
  | num (n : Int)
  | str (s : String)
  | arr (xs : List J)
  | obj (fields : List (String × J))

mutual

/-- Structural decidable equality on JSON values (Python `==` on the
decoded structures). -/
def J.decEq : (a b : J) → Decidable (a = b)
  | .null, .null => isTrue rfl
  | .bool a, .bool b =>
    if h : a = b then isTrue (by rw [h])
    else isFalse (by intro hh; injection hh; exact h (by assumption))
  | .num a, .num b =>
    if h : a = b then isTrue (by rw [h])
    else isFalse (by intro hh; injection hh; exact h (by assumption))
  | .str a, .str b =>
    if h : a = b then isTrue (by rw [h])
    else isFalse (by intro hh; injection hh; exact h (by assumption))
  | .arr xs, .arr ys =>
    match J.decEqList xs ys with
    | isTrue h => isTrue (by rw [h])
    | isFalse h => isFalse (by intro hh; injection hh; exact h (by assumption))
  | .obj fs, .obj gs =>
    match J.decEqFields fs gs with
    | isTrue h => isTrue (by rw [h])
    | isFalse h => isFalse (by intro hh; injection hh; exact h (by assumption))
  | .null, .bool _ => isFalse nofun
  | .null, .num _ => isFalse nofun
  | .null, .str _ => isFalse nofun
  | .null, .arr _ => isFalse nofun
  | .null, .obj _ => isFalse nofun
  | .bool _, .null => isFalse nofun
  | .bool _, .num _ => isFalse nofun
  | .bool _, .str _ => isFalse nofun
  | .bool _, .arr _ => isFalse nofun
  | .bool _, .obj _ => isFalse nofun
  | .num _, .null => isFalse nofun
  | .num _, .bool _ => isFalse nofun
  | .num _, .str _ => isFalse nofun
  | .num _, .arr _ => isFalse nofun
  | .num _, .obj _ => isFalse nofun
  | .str _, .null => isFalse nofun
  | .str _, .bool _ => isFalse nofun
  | .str _, .num _ => isFalse nofun
  | .str _, .arr _ => isFalse nofun
  | .str _, .obj _ => isFalse nofun
  | .arr _, .null => isFalse nofun
  | .arr _, .bool _ => isFalse nofun
  | .arr _, .num _ => isFalse nofun
  | .arr _, .str _ => isFalse nofun
  | .arr _, .obj _ => isFalse nofun
  | .obj _, .null => isFalse nofun
  | .obj _, .bool _ => isFalse nofun
  | .obj _, .num _ => isFalse nofun
  | .obj _, .str _ => isFalse nofun
  | .obj _, .arr _ => isFalse nofun

/-- Decidable equality on JSON arrays. -/
def J.decEqList : (xs ys : List J) → Decidable (xs = ys)
  | [], [] => isTrue rfl
  | [], _ :: _ => isFalse nofun
  | _ :: _, [] => isFalse nofun
  | x :: xs, y :: ys =>
    match J.decEq x y with
    | isFalse h => isFalse (by intro hh; injection hh; exact h (by assumption))
    | isTrue h1 =>
      match J.decEqList xs ys with
      | isTrue h2 => isTrue (by rw [h1, h2])
      | isFalse h => isFalse (by intro hh; injection hh; exact h (by assumption))

/-- Decidable equality on JSON object field lists. -/
def J.decEqFields : (xs ys : List (String × J)) → Decidable (xs = ys)
  | [], [] => isTrue rfl
  | [], _ :: _ => isFalse nofun
  | _ :: _, [] => isFalse nofun
  | (k, v) :: xs, (l, w) :: ys =>
    if hk : k = l then
      match J.decEq v w with
      | isFalse h => isFalse (by intro hh; injection hh with h1 h2; exact h (congrArg Prod.snd h1))
      | isTrue hv =>
        match J.decEqFields xs ys with
        | isTrue h2 => isTrue (by rw [hk, hv, h2])
        | isFalse h => isFalse (by intro hh; injection hh; exact h (by assumption))
    else isFalse (by intro hh; injection hh with h1 h2; exact hk (congrArg Prod.fst h1))

end

instance : DecidableEq J := J.decEq

/-- Python truthiness (`bool(x)`) on a decoded JSON value: `None`, `False`,
`0`, `""`, `[]` and an empty dict are falsy, everything else truthy. -/
def truthy : J → Bool
  | .null => false
  | .bool b => b
  | .num n => decide (n ≠ 0)
  | .str s => decide (s ≠ "")
  | .arr xs => !xs.isEmpty
  | .obj fs => !fs.isEmpty

/-- `bool(x)` where `x` may be Python `None` (a `dict.get` miss). -/
def optTruthy : Option J → Bool
  | none => false
  | some v => truthy v

/-- Association-list lookup: Python `dict[key]` / `dict.get(key)`. -/
def lookupField : List (String × J) → String → Option J
  | [], _ => none
  | (k, v) :: rest, key => if k = key then some v else lookupField rest key

/-- Update an existing key in a dict (Python `d[key] = v` when `key` is
already present, as in `user._data["followers_count"] += 1`). -/
def setField : List (String × J) → String → J → List (String × J)
  | [], _, _ => []
  | (k, v) :: rest, key, nv =>
    if k = key then (k, nv) :: rest else (k, v) :: setField rest key nv

/-- `self._data.get(key)` / `self._data[key]`: `none` models both a `.get`
miss (Python `None`) and the `KeyError` of a `[]` access on a missing key;
the call sites below distinguish the two. -/
def J.get? : J → String → Option J
  | .obj fs, k => lookupField fs k
  | _, _ => none

/-! ## Entity accessors from `kick/message.py` -/

/-- `Message.is_reply` (kick/message.py lines 201-207):
`bool(self._data.get("metadata"))`. -/
def Message.is_reply (d : J) : Bool :=
  optTruthy (d.get? "metadata")

/-- `Message.references` (kick/message.py lines 209-218): returns `None`
when `self._data.get("metadata")` is falsy, otherwise a `PartialMessage`
wrapping the metadata dict. The result carries the wrapped `_data`. -/
def Message.references (d : J) : Option J :=
  match d.get? "metadata" with
  | none => none
  | some m => if truthy m then some m else none

/-- `PartialMessage.id` (kick/message.py lines 134-140):
`self._data["original_message"]["id"]`; `none` models `KeyError`. -/
def PartialMessage.id (d : J) : Option J :=
  match d.get? "original_message" with
  | some m => m.get? "id"
  | none => none

/-- The id the spec compares `references.id` against:
`metadata.original_message.id` of the parent message payload. -/
def metaOriginalMessageId (d : J) : Option J :=
  match d.get? "metadata" with
  | some m => PartialMessage.id m
  | none => none

/-- `MessageDeletedEventData.ai_moderated` (kick/message.py lines 299-305):
`bool(self._data.get("aiModerated"))`. -/
def MessageDeletedEventData.ai_moderated (d : J) : Bool :=
  optTruthy (d.get? "aiModerated")

/-- `MessageDeletedEventData.violated_rules` (kick/message.py lines 307-313):
`self._data.get("violatedRules")`, `none` being Python `None`. -/
def MessageDeletedEventData.violated_rules (d : J) : Option J :=
  d.get? "violatedRules"

/-- `UserBannedEventData.is_permanent` (kick/message.py lines 385-391):
`bool(self._data.get("permanent"))`. -/
def UserBannedEventData.is_permanent (d : J) : Bool :=
  optTruthy (d.get? "permanent")

/-- `UserUnbannedEventData.is_permanent` (kick/message.py lines 440-446):
`bool(self._data.get("permanent"))`. -/
def UserUnbannedEventData.is_permanent (d : J) : Bool :=
  optTruthy (d.get? "permanent")

/-! ## Author equality (kick/message.py lines 76-77, 85-117) -/

/-- The runtime class of an author instance: `PartialAuthor`, or its
subclass `Author`. -/
inductive PyClass where
  | partialAuthorC
  | authorC
deriving DecidableEq

/-- `isinstance(x, target)` on the author hierarchy: an `Author` is an
instance of `PartialAuthor` (subclass) but not conversely. -/
def PyClass.isSubclassOf : PyClass → PyClass → Bool
  | _, .partialAuthorC => true
  | .authorC, .authorC => true
  | .partialAuthorC, .authorC => false

/-- An author instance: its runtime class together with its raw payload. -/
structure AuthorObj where
  cls : PyClass
  _data : J
deriving DecidableEq

/-- `PartialAuthor.id`: `self._data["id"]`; `none` models `KeyError`. -/
def AuthorObj.idField (a : AuthorObj) : Option J :=
  a._data.get? "id"

/-- `PartialAuthor.__eq__` (kick/message.py lines 76-77), inherited by
`Author`: `isinstance(other, self.__class__) and other.id == self.id`.
The isinstance test is against the LEFT operand's runtime class; when it
fails Python short-circuits to `False` without touching ids. `none` models
a `KeyError` from an id access. -/
def authorEq (self other : AuthorObj) : Option Bool :=
  if other.cls.isSubclassOf self.cls then
    match other.idField, self.idField with
    | some oid, some sid => some (decide (oid = sid))
    | _, _ => none
  else
    some false

/-! ## The websocket pipeline from `kick/ws.py` -/

/-- One dispatched notification (`self.http.client.dispatch(name, ...)`),
tagged with the event name and carrying the raw payload of the constructed
entity (each entity is determined by its wrapped `_data`). -/
inductive Dispatch where
  | payloadReceive (event : String) (data : J)
  | rawPayloadReceive (raw : J)
  | message (data : J)
  | messageDelete (data : J)
  | pinMessage (data : J)
  | pinnedMessageDelete
  | userBanned (data : J)
  | userUnbanned (data : J)
  | livestreamStart (data : J)
  | follow (user : J)
  | unfollow (user : J)
deriving DecidableEq

/-- The Python exceptions that can escape `poll_event`. -/
inductive WsErr where
  | protocolError
  | keyError
  | typeError
deriving DecidableEq

/-- Tracked-user lookup: `self.http.client._watched_users[channel_id]`. -/
def lookupUser : List (J × J) → J → Option J
  | [], _ => none
  | (k, v) :: rest, key => if k = key then some v else lookupUser rest key

/-- In-place mutation of the tracked user object, seen from the map. -/
def setUser : List (J × J) → J → J → List (J × J)
  | [], _, _ => []
  | (k, v) :: rest, key, nv =>
    if k = key then (k, nv) :: rest else (k, v) :: setUser rest key nv

/-- The client state the read loop touches: `_watched_users`, a dict from
channel id (a JSON value) to the tracked user's `_data` dict. -/
structure ClientState where
  watchedUsers : List (J × J)
deriving DecidableEq

/-- `user._data["followers_count"] += delta`: reads the counter (KeyError /
TypeError when absent or not a number, modelled `none`) then writes back. -/
def incFollowers (u : J) (delta : Int) : Option J :=
  match u with
  | .obj fs =>
    match lookupField fs "followers_count" with
    | some (.num n) => some (.obj (setField fs "followers_count" (.num (n + delta))))
    | _ => none
  | _ => none

/-- The user object after its `followers_count` is overwritten with `v`. -/
def setFollowers (u : J) (v : Int) : J :=
  match u with
  | .obj fs => .obj (setField fs "followers_count" (.num v))
  | other => other

/-- The `App\Events\FollowersUpdated` arm (kick/ws.py lines 56-65): look up
the tracked user by `data["channel_id"]` (KeyError when untracked), branch
on `data["followed"] is True`, mutate `followers_count` in place, dispatch
`follow` or `unfollow` carrying the mutated object. -/
def followersUpdated (st : ClientState) (data : J) :
    List Dispatch × ClientState × Option WsErr :=
  match data.get? "channel_id" with
  | none => ([], st, some WsErr.keyError)
  | some cid =>
    match lookupUser st.watchedUsers cid with
    | none => ([], st, some WsErr.keyError)
    | some user =>
      match data.get? "followed" with
      | none => ([], st, some WsErr.keyError)
      | some f =>
        let delta : Int := if f = J.bool true then 1 else -1
        match incFollowers user delta with
        | none => ([], st, some WsErr.typeError)
        | some mutated =>
          let ev := if f = J.bool true then Dispatch.follow mutated
                    else Dispatch.unfollow mutated
          ([ev], ClientState.mk (setUser st.watchedUsers cid mutated), none)

/-- The `match raw_data["event"]` classifier of `poll_event` (kick/ws.py
lines 35-65): named dispatches and state change for one decoded frame. -/
def handleEvent (st : ClientState) (event : String) (data : J) :
    List Dispatch × ClientState × Option WsErr :=
  match event with
  | "App\\Events\\ChatMessageEvent" => ([Dispatch.message data], st, none)
  | "App\\Events\\MessageDeletedEvent" => ([Dispatch.messageDelete data], st, none)
  | "App\\Events\\PinnedMessageCreatedEvent" => ([Dispatch.pinMessage data], st, none)
  | "App\\Events\\PinnedMessageDeletedEvent" => ([Dispatch.pinnedMessageDelete], st, none)
  | "App\\Events\\UserBannedEvent" => ([Dispatch.userBanned data], st, none)
  | "App\\Events\\UserUnbannedEvent" => ([Dispatch.userUnbanned data], st, none)
  | "App\\Events\\StreamerIsLive" => ([Dispatch.livestreamStart data], st, none)
  | "App\\Events\\FollowersUpdated" => followersUpdated st data
  | _ => ([], st, none)

/-- The eight event tags `poll_event` recognises. -/
def knownTags : List String :=
  ["App\\Events\\ChatMessageEvent", "App\\Events\\MessageDeletedEvent",
   "App\\Events\\PinnedMessageCreatedEvent", "App\\Events\\PinnedMessageDeletedEvent",
   "App\\Events\\UserBannedEvent", "App\\Events\\UserUnbannedEvent",
   "App\\Events\\StreamerIsLive", "App\\Events\\FollowersUpdated"]

/-- One incoming transport frame, by how far `raw_msg.json()` and
`json.loads(raw_data["data"])` get on it: the outer envelope fails to
parse; the outer envelope parses (fields `event` and `data`) but the inner
`data` string is malformed JSON; or both parses succeed, the inner string
`dataStr` decoding to the JSON value `data`. -/
inductive RawFrame where
  | malformedOuter
  | badInner (event : String) (dataStr : String)
  | ok (event : String) (dataStr : String) (data : J)

/-- The undecoded outer frame dict `raw_data`, as passed to
`dispatch("raw_payload_receive", raw_data)`. -/
def rawOf (event dataStr : String) : J :=
  J.obj [("event", J.str event), ("data", J.str dataStr)]

/-- Outcome of one `poll_event` call: the dispatches it fired, in order,
the client state it left behind, and the exception it raised, if any. -/
structure PollResult where
  dispatches : List Dispatch
  state : ClientState
  error : Option WsErr
deriving DecidableEq

/-- `PusherWebSocket.poll_event` (kick/ws.py lines 26-65): decode the outer
envelope, decode the inner `data` string (either failure raises, nothing is
dispatched), dispatch `payload_receive` then `raw_payload_receive`, then
run the classifier. No exception handling anywhere. -/
def pollEvent (st : ClientState) (frame : RawFrame) : PollResult :=
  match frame with
  | .malformedOuter => ⟨[], st, some WsErr.protocolError⟩
  | .badInner _ _ => ⟨[], st, some WsErr.protocolError⟩
  | .ok event dataStr data =>
    let named := handleEvent st event data
    ⟨Dispatch.payloadReceive event data :: Dispatch.rawPayloadReceive (rawOf event dataStr)
       :: named.1, named.2.1, named.2.2⟩

/-- `PusherWebSocket.start` (kick/ws.py lines 67-69): `while not closed:
await poll_event()`. The frame list is the sequence of frames the transport
would deliver before closing. There is no exception handler, so the first
error aborts the loop: later frames are never received or processed. -/
def startLoop (st : ClientState) : List RawFrame → List Dispatch × ClientState × Option WsErr
  | [] => ([], st, none)
  | f :: rest =>
    let r := pollEvent st f
    match r.error with
    | some e => (r.dispatches, r.state, some e)
    | none =>
      let tail := startLoop r.state rest
      (r.dispatches ++ tail.1, tail.2.1, tail.2.2)

/-! ## Subscription control frames (kick/ws.py lines 71-101) -/

/-- A control frame `{event, data: {auth, channel}}` sent via `send_json`. -/
structure ControlFrame where
  event : String
  auth : String
  channel : String
deriving DecidableEq

/-- `subscribe_to_chatroom` (kick/ws.py lines 71-77). -/
def subscribeToChatroom (chatroomId : Int) : ControlFrame :=
  ⟨"pusher:subscribe", "", "chatrooms." ++ toString chatroomId ++ ".v2"⟩

/-- `unsubscribe_to_chatroom` (kick/ws.py lines 79-85). -/
def unsubscribeToChatroom (chatroomId : Int) : ControlFrame :=
  ⟨"pusher:unsubscribe", "", "chatrooms." ++ toString chatroomId ++ ".v2"⟩

/-- `watch_channel` (kick/ws.py lines 87-93). -/
def watchChannel (channelId : Int) : ControlFrame :=
  ⟨"pusher:subscribe", "", "channel." ++ toString channelId⟩

/-- `unwatch_channel` (kick/ws.py lines 95-101). Note the source sends the
event `"pusher:subscribe"` here, not `"pusher:unsubscribe"`. -/
def unwatchChannel (channelId : Int) : ControlFrame :=
  ⟨"pusher:subscribe", "", "channel." ++ toString channelId⟩

/-! ## The cached-property memoisation cell -/

/-- Modelled from the spec: `cached_property` is imported from
`kick/utils.py`, which is not available; spec sections 4.1 and 9 describe it
as a memoisation cell per derived field — the derived value is computed by
a supplied function on first access, the result is stored, and every
subsequent access returns the stored result, bypassing recomputation, with
no invalidation. -/
structure CachedCell (α : Type) where
  stored : Option α

/-- One access to a cached property: return the stored value if present,
otherwise run the deriving function once and store its result. Also
reports how many times the deriving function ran (0 or 1). -/
def CachedCell.access {α : Type} (compute : Unit → α) :
    CachedCell α → α × CachedCell α × Nat
  | ⟨some v⟩ => (v, ⟨some v⟩, 0)
  | ⟨none⟩ => (compute (), ⟨some (compute ())⟩, 1)

/-- `k` successive accesses to the same cached property on the same
instance: the list of returned values, the final cell, and the total number
of times the deriving function ran. -/
def CachedCell.accessMany {α : Type} (compute : Unit → α) :
    CachedCell α → Nat → List α × CachedCell α × Nat
  | c, 0 => ([], c, 0)
  | c, k + 1 =>
    let r := CachedCell.access compute c
    let tail := CachedCell.accessMany compute r.2.1 k
    (r.1 :: tail.1, tail.2.1, r.2.2 + tail.2.2)

/-! ## Helper lemmas -/

theorem lookupField_setField (fs : List (String × J)) (key : String) (v0 nv : J)
    (h : lookupField fs key = some v0) :
    lookupField (setField fs key nv) key = some nv := by
  induction fs with
  | nil => simp [lookupField] at h
  | cons p rest ih =>
    obtain ⟨k, v⟩ := p
    by_cases hk : k = key
    · simp [lookupField, setField, hk]
    · simp only [lookupField, setField, if_neg hk] at h ⊢
      exact ih h

theorem handleEvent_followers (st : ClientState) (data : J) :
    handleEvent st "App\\Events\\FollowersUpdated" data = followersUpdated st data := rfl

theorem handleEvent_unknown (st : ClientState) (event : String) (data : J)
    (h : event ∉ knownTags) : handleEvent st event data = ([], st, none) := by
  unfold handleEvent
  split <;> simp_all [knownTags]

theorem accessMany_stored {α : Type} (compute : Unit → α) (v : α) (k : Nat) :
    CachedCell.accessMany compute (CachedCell.mk (some v)) k
      = (List.replicate k v, CachedCell.mk (some v), 0) := by
  induction k with
  | zero => rfl
  | succ k ih => simp [CachedCell.accessMany, CachedCell.access, ih, List.replicate]

/-! ## The claims -/

/-- Claim C1, counterexample: a frame whose inner `data` string is malformed
JSON is NOT an isolated per-frame failure. With a malformed frame followed
by a well-formed `PinnedMessageDeletedEvent` frame, the read loop stops at
the malformed frame with an uncaught error: the second frame is never
processed and its `pinned_message_delete` notification never fires. -/
theorem c1_decode_failure_stops_loop_cex :
    startLoop (ClientState.mk [])
        [RawFrame.badInner "App\\Events\\ChatMessageEvent" "notjson",
         RawFrame.ok "App\\Events\\PinnedMessageDeletedEvent" "s" (J.obj [])]
      = ([], ClientState.mk [], some WsErr.protocolError) ∧
    Dispatch.pinnedMessageDelete ∉
      (startLoop (ClientState.mk [])
        [RawFrame.badInner "App\\Events\\ChatMessageEvent" "notjson",
         RawFrame.ok "App\\Events\\PinnedMessageDeletedEvent" "s" (J.obj [])]).1 := by
  constructor
  · rfl
  · simp [startLoop, pollEvent]

/-- Claim C1, amended: decoding failure (malformed outer envelope or
malformed inner `data` JSON) raises out of `poll_event` with nothing
dispatched for that frame; `start` has no exception handler, so the error
propagates out of the read loop and the remaining frames are never read or
processed. -/
theorem c1_decode_failure_propagates (st : ClientState) (event s : String)
    (rest : List RawFrame) :
    pollEvent st RawFrame.malformedOuter
      = PollResult.mk [] st (some WsErr.protocolError) ∧
    pollEvent st (RawFrame.badInner event s)
      = PollResult.mk [] st (some WsErr.protocolError) ∧
    startLoop st (RawFrame.badInner event s :: rest)
      = ([], st, some WsErr.protocolError) ∧
    startLoop st (RawFrame.malformedOuter :: rest)
      = ([], st, some WsErr.protocolError) :=
  ⟨rfl, rfl, rfl, rfl⟩

/-- Claim C2, counterexample: an `Author` and a `PartialAuthor` with equal
id (and different slug payloads) do NOT compare equal both ways. The
`isinstance(other, self.__class__)` test in `PartialAuthor.__eq__` makes
`author == partial_author` evaluate to `False`, while
`partial_author == author` evaluates to `True`. -/
theorem c2_author_eq_asymmetric_cex :
    authorEq
        (AuthorObj.mk PyClass.authorC (J.obj [("id", J.num 1), ("slug", J.str "alice")]))
        (AuthorObj.mk PyClass.partialAuthorC (J.obj [("id", J.num 1), ("slug", J.str "bob")]))
      = some false ∧
    authorEq
        (AuthorObj.mk PyClass.partialAuthorC (J.obj [("id", J.num 1), ("slug", J.str "bob")]))
        (AuthorObj.mk PyClass.authorC (J.obj [("id", J.num 1), ("slug", J.str "alice")]))
      = some true := by
  decide

/-- Claim C2, amended: equality on the author hierarchy is determined
solely by the id, plus an isinstance test of the RIGHT operand against the
LEFT operand's runtime class. Two `Author` instances with equal id compare
equal regardless of payload, as do two `PartialAuthor` instances; a
`PartialAuthor` compared against an `Author` with equal id yields `True`;
but an `Author` compared against a `PartialAuthor` yields `False`, so
equality is not symmetric across the partial/full hierarchy. -/
theorem c2_eq_by_id_with_isinstance (d1 d2 i : J)
    (h1 : d1.get? "id" = some i) (h2 : d2.get? "id" = some i) :
    authorEq (AuthorObj.mk PyClass.authorC d1) (AuthorObj.mk PyClass.authorC d2)
      = some true ∧
    authorEq (AuthorObj.mk PyClass.partialAuthorC d1) (AuthorObj.mk PyClass.partialAuthorC d2)
      = some true ∧
    authorEq (AuthorObj.mk PyClass.partialAuthorC d1) (AuthorObj.mk PyClass.authorC d2)
      = some true ∧
    authorEq (AuthorObj.mk PyClass.authorC d1) (AuthorObj.mk PyClass.partialAuthorC d2)
      = some false := by
  simp [authorEq, AuthorObj.idField, PyClass.isSubclassOf, h1, h2]

/-- Claim C2, witness for the amended theorem at id 7 with differing slug
payload snapshots. -/
theorem c2_eq_witness :
    authorEq
        (AuthorObj.mk PyClass.authorC (J.obj [("id", J.num 7), ("slug", J.str "a")]))
        (AuthorObj.mk PyClass.authorC (J.obj [("id", J.num 7), ("slug", J.str "b")]))
      = some true ∧
    authorEq
        (AuthorObj.mk PyClass.partialAuthorC (J.obj [("id", J.num 7), ("slug", J.str "a")]))
        (AuthorObj.mk PyClass.partialAuthorC (J.obj [("id", J.num 7), ("slug", J.str "b")]))
      = some true ∧
    authorEq
        (AuthorObj.mk PyClass.partialAuthorC (J.obj [("id", J.num 7), ("slug", J.str "a")]))
        (AuthorObj.mk PyClass.authorC (J.obj [("id", J.num 7), ("slug", J.str "b")]))
      = some true ∧
    authorEq
        (AuthorObj.mk PyClass.authorC (J.obj [("id", J.num 7), ("slug", J.str "a")]))
        (AuthorObj.mk PyClass.partialAuthorC (J.obj [("id", J.num 7), ("slug", J.str "b")]))
      = some false :=
  c2_eq_by_id_with_isinstance
    (J.obj [("id", J.num 7), ("slug", J.str "a")])
    (J.obj [("id", J.num 7), ("slug", J.str "b")])
    (J.num 7) rfl rfl

/-- Claim C7: the claim correctly states what unwatch must send, but
`unwatch_channel` in the source sends event `"pusher:subscribe"` — not
`"pusher:unsubscribe"` — with topic `channel.<id>`, identical to
`watch_channel`, while `unsubscribe_to_chatroom` does send
`"pusher:unsubscribe"`. Evaluated here at channel id 5. -/
theorem c7_unwatch_sends_subscribe :
    unwatchChannel 5 = ControlFrame.mk "pusher:subscribe" "" "channel.5" ∧
    watchChannel 5 = ControlFrame.mk "pusher:subscribe" "" "channel.5" ∧
    (unwatchChannel 5).event ≠ "pusher:unsubscribe" ∧
    unsubscribeToChatroom 5 = ControlFrame.mk "pusher:unsubscribe" "" "chatrooms.5.v2" := by
  decide

/-- Claim C10: the optional-key accessors never raise on an absent key:
without `permanent`, both `is_permanent` accessors return `False`; without
`aiModerated`, `ai_moderated` returns `False`; without `violatedRules`,
`violated_rules` returns `None`. -/
theorem c10_optional_keys_default (d1 d2 d3 : J)
    (h1 : d1.get? "permanent" = none)
    (h2 : d2.get? "aiModerated" = none)
    (h3 : d3.get? "violatedRules" = none) :
    UserBannedEventData.is_permanent d1 = false ∧
    UserUnbannedEventData.is_permanent d1 = false ∧
    MessageDeletedEventData.ai_moderated d2 = false ∧
    MessageDeletedEventData.violated_rules d3 = none := by
  simp [UserBannedEventData.is_permanent, UserUnbannedEventData.is_permanent,
        MessageDeletedEventData.ai_moderated, MessageDeletedEventData.violated_rules,
        optTruthy, h1, h2, h3]

/-- Claim C10, witness: payloads holding only an `id` field. -/
theorem c10_witness :
    UserBannedEventData.is_permanent (J.obj [("id", J.str "e1")]) = false ∧
    UserUnbannedEventData.is_permanent (J.obj [("id", J.str "e1")]) = false ∧
    MessageDeletedEventData.ai_moderated (J.obj [("id", J.str "e2")]) = false ∧
    MessageDeletedEventData.violated_rules (J.obj [("id", J.str "e3")]) = none :=
  c10_optional_keys_default
    (J.obj [("id", J.str "e1")]) (J.obj [("id", J.str "e2")]) (J.obj [("id", J.str "e3")])
    rfl rfl rfl

/-- Claim C3, counterexample: the two generic notifications are fired for
every decoded frame, but NOT in the claimed order. For a frame with the
unrecognised tag `"SomeUnknownEvent"`, `poll_event` dispatches
`payload_receive` first and `raw_payload_receive` second (kick/ws.py lines
32-33), not raw-first as claimed. -/
theorem c3_dispatch_order_cex :
    (pollEvent (ClientState.mk [])
        (RawFrame.ok "SomeUnknownEvent" "s" (J.obj []))).dispatches
      = [Dispatch.payloadReceive "SomeUnknownEvent" (J.obj []),
         Dispatch.rawPayloadReceive (rawOf "SomeUnknownEvent" "s")] ∧
    (pollEvent (ClientState.mk [])
        (RawFrame.ok "SomeUnknownEvent" "s" (J.obj []))).dispatches
      ≠ [Dispatch.rawPayloadReceive (rawOf "SomeUnknownEvent" "s"),
         Dispatch.payloadReceive "SomeUnknownEvent" (J.obj [])] := by
  decide

/-- Claim C3, amended: for every successfully decoded frame the dispatcher
unconditionally emits the generic typed notification `payload_receive`
(carrying the event name and inner payload) first and the generic raw
notification `raw_payload_receive` (carrying the undecoded outer frame)
second; when the event tag is not one of the eight known tags, exactly
these two notifications are emitted, no named notification is emitted, the
state is unchanged and no error is raised. -/
theorem c3_generic_dispatches (st : ClientState) (event s : String) (data : J) :
    (pollEvent st (RawFrame.ok event s data)).dispatches.take 2
      = [Dispatch.payloadReceive event data,
         Dispatch.rawPayloadReceive (rawOf event s)] ∧
    (event ∉ knownTags →
      pollEvent st (RawFrame.ok event s data)
        = PollResult.mk
            [Dispatch.payloadReceive event data,
             Dispatch.rawPayloadReceive (rawOf event s)]
            st none) := by
  refine ⟨rfl, fun h => ?_⟩
  simp [pollEvent, handleEvent_unknown st event data h]

/-- Claim C3, witness for the amended theorem at the unknown tag
`"pusher:connection_established"`. -/
theorem c3_generic_witness :
    (pollEvent (ClientState.mk [])
        (RawFrame.ok "pusher:connection_established" "s" (J.obj []))).dispatches.take 2
      = [Dispatch.payloadReceive "pusher:connection_established" (J.obj []),
         Dispatch.rawPayloadReceive (rawOf "pusher:connection_established" "s")] ∧
    pollEvent (ClientState.mk [])
        (RawFrame.ok "pusher:connection_established" "s" (J.obj []))
      = PollResult.mk
          [Dispatch.payloadReceive "pusher:connection_established" (J.obj []),
           Dispatch.rawPayloadReceive (rawOf "pusher:connection_established" "s")]
          (ClientState.mk []) none :=
  have h := c3_generic_dispatches (ClientState.mk []) "pusher:connection_established" "s" (J.obj [])
  ⟨h.1, h.2 (by decide)⟩

/-- Claim C4: `Message.is_reply` is true iff the payload's `metadata` field
is present and a non-empty map; `references` is `None` iff `is_reply` is
false; and when `references` is present, its `id` equals
`metadata.original_message.id` of the parent payload. Stated for payloads
whose `metadata` field, when present, is a map, as the payload schema
(`ReplyMetaData`) prescribes. -/
theorem c4_is_reply_references (d : J)
    (hm : d.get? "metadata" = none ∨ ∃ fs, d.get? "metadata" = some (J.obj fs)) :
    (Message.is_reply d = true ↔
      ∃ fs, d.get? "metadata" = some (J.obj fs) ∧ fs ≠ []) ∧
    (Message.references d = none ↔ Message.is_reply d = false) ∧
    (∀ r, Message.references d = some r →
      PartialMessage.id r = metaOriginalMessageId d) := by
  rcases hm with h | ⟨fs, h⟩
  · refine ⟨?_, ?_, ?_⟩
    · simp [Message.is_reply, optTruthy, h]
    · simp [Message.references, Message.is_reply, optTruthy, h]
    · simp [Message.references, h]
  · cases fs with
    | nil =>
      refine ⟨?_, ?_, ?_⟩
      · simp [Message.is_reply, optTruthy, truthy, h]
      · simp [Message.references, Message.is_reply, optTruthy, truthy, h]
      · simp [Message.references, truthy, h]
    | cons p rest =>
      refine ⟨?_, ?_, ?_⟩
      · simp [Message.is_reply, optTruthy, truthy, h]
      · simp [Message.references, Message.is_reply, optTruthy, truthy, h]
      · intro r hr
        simp [Message.references, truthy, h] at hr
        simp [metaOriginalMessageId, h, ← hr]

/-- Claim C4, witness: a reply payload whose metadata references original
message `"m1"`, and the resulting accessor values. -/
theorem c4_witness :
    Message.is_reply
        (J.obj [("metadata", J.obj [("original_message", J.obj [("id", J.str "m1")])])])
      = true ∧
    Message.references
        (J.obj [("metadata", J.obj [("original_message", J.obj [("id", J.str "m1")])])])
      = some (J.obj [("original_message", J.obj [("id", J.str "m1")])]) ∧
    PartialMessage.id (J.obj [("original_message", J.obj [("id", J.str "m1")])])
      = some (J.str "m1") := by
  have h := c4_is_reply_references
    (J.obj [("metadata", J.obj [("original_message", J.obj [("id", J.str "m1")])])])
    (Or.inr ⟨[("original_message", J.obj [("id", J.str "m1")])], rfl⟩)
  refine ⟨h.1.mpr ⟨[("original_message", J.obj [("id", J.str "m1")])], rfl, by simp⟩, rfl, ?_⟩
  have h3 := h.2.2 (J.obj [("original_message", J.obj [("id", J.str "m1")])]) rfl
  exact h3.trans (by decide)

/-- Claim C8: a cached derived field is computed at most once per instance.
`k` successive accesses starting from a fresh cell run the deriving
function exactly once, every access returns that first computed value, and
the cell ends up storing it. (`cached_property` itself lives in
`kick/utils.py`, modelled from the spec by `CachedCell`.) -/
theorem c8_cached_once {α : Type} (compute : Unit → α) (k : Nat) (hk : 1 ≤ k) :
    CachedCell.accessMany compute (CachedCell.mk none) k
      = (List.replicate k (compute ()), CachedCell.mk (some (compute ())), 1) := by
  obtain ⟨m, rfl⟩ : ∃ m, k = m + 1 := ⟨k - 1, by omega⟩
  simp [CachedCell.accessMany, CachedCell.access, accessMany_stored, List.replicate]

/-- Claim C8, witness: three accesses to `Message.is_reply` of a reply
payload compute the derivation once and return `true` all three times. -/
theorem c8_cached_witness :
    CachedCell.accessMany
        (fun _ => Message.is_reply (J.obj [("metadata", J.obj [("k", J.null)])]))
        (CachedCell.mk none) 3
      = ([true, true, true],
         CachedCell.mk (some true), 1) := by
  have h := c8_cached_once
    (fun _ => Message.is_reply (J.obj [("metadata", J.obj [("k", J.null)])])) 3 (by decide)
  exact h

/-- Claim C5: a `FollowersUpdated` frame for a tracked channel id mutates
that tracked user's `followers_count` in place — `+1` and a `follow`
dispatch when `followed` is the boolean `true`, `-1` and an `unfollow`
dispatch when it is the boolean `false` — with the dispatched notification
carrying the mutated user object, after the two generic notifications. -/
theorem c5_followers_updated_tracked (st : ClientState) (cid u data : J)
    (s : String) (n : Int) (b : Bool)
    (hcid : data.get? "channel_id" = some cid)
    (hf : data.get? "followed" = some (J.bool b))
    (hu : lookupUser st.watchedUsers cid = some u)
    (hn : u.get? "followers_count" = some (J.num n)) :
    pollEvent st (RawFrame.ok "App\\Events\\FollowersUpdated" s data)
      = PollResult.mk
          [Dispatch.payloadReceive "App\\Events\\FollowersUpdated" data,
           Dispatch.rawPayloadReceive (rawOf "App\\Events\\FollowersUpdated" s),
           (if b then Dispatch.follow else Dispatch.unfollow)
             (setFollowers u (n + (if b then 1 else -1)))]
          (ClientState.mk
            (setUser st.watchedUsers cid (setFollowers u (n + (if b then 1 else -1)))))
          none ∧
    (setFollowers u (n + (if b then 1 else -1))).get? "followers_count"
      = some (J.num (n + (if b then 1 else -1))) := by
  cases u with
  | null => simp [J.get?] at hn
  | bool c => simp [J.get?] at hn
  | num m => simp [J.get?] at hn
  | str t => simp [J.get?] at hn
  | arr xs => simp [J.get?] at hn
  | obj fs =>
    simp only [J.get?] at hn
    have hfu : followersUpdated st data
        = ([(if b then Dispatch.follow else Dispatch.unfollow)
              (setFollowers (J.obj fs) (n + (if b then 1 else -1)))],
           ClientState.mk
             (setUser st.watchedUsers cid
               (setFollowers (J.obj fs) (n + (if b then 1 else -1)))),
           none) := by
      cases b <;>
        simp [followersUpdated, hcid, hu, hf, incFollowers, hn, setFollowers]
    refine ⟨?_, ?_⟩
    · show (⟨Dispatch.payloadReceive "App\\Events\\FollowersUpdated" data
          :: Dispatch.rawPayloadReceive (rawOf "App\\Events\\FollowersUpdated" s)
          :: (followersUpdated st data).1,
         (followersUpdated st data).2.1, (followersUpdated st data).2.2⟩ : PollResult) = _
      rw [hfu]
    · show J.get? (J.obj (setField fs "followers_count"
          (J.num (n + (if b then 1 else -1))))) "followers_count" = _
      simp only [J.get?]
      exact lookupField_setField fs "followers_count" (J.num n) _ hn

/-- Claim C5, witness: channel 5 tracked with `followers_count = 3`;
`followed: true` dispatches `follow` with the counter at 4, and from 4,
`followed: false` dispatches `unfollow` with the counter back at 3. -/
theorem c5_followers_witness :
    pollEvent (ClientState.mk [(J.num 5, J.obj [("followers_count", J.num 3)])])
        (RawFrame.ok "App\\Events\\FollowersUpdated" "s"
          (J.obj [("channel_id", J.num 5), ("followed", J.bool true)]))
      = PollResult.mk
          [Dispatch.payloadReceive "App\\Events\\FollowersUpdated"
             (J.obj [("channel_id", J.num 5), ("followed", J.bool true)]),
           Dispatch.rawPayloadReceive (rawOf "App\\Events\\FollowersUpdated" "s"),
           Dispatch.follow (J.obj [("followers_count", J.num 4)])]
          (ClientState.mk [(J.num 5, J.obj [("followers_count", J.num 4)])])
          none ∧
    pollEvent (ClientState.mk [(J.num 5, J.obj [("followers_count", J.num 4)])])
        (RawFrame.ok "App\\Events\\FollowersUpdated" "s"
          (J.obj [("channel_id", J.num 5), ("followed", J.bool false)]))
      = PollResult.mk
          [Dispatch.payloadReceive "App\\Events\\FollowersUpdated"
             (J.obj [("channel_id", J.num 5), ("followed", J.bool false)]),
           Dispatch.rawPayloadReceive (rawOf "App\\Events\\FollowersUpdated" "s"),
           Dispatch.unfollow (J.obj [("followers_count", J.num 3)])]
          (ClientState.mk [(J.num 5, J.obj [("followers_count", J.num 3)])])
          none := by
  have h1 := c5_followers_updated_tracked
    (ClientState.mk [(J.num 5, J.obj [("followers_count", J.num 3)])])
    (J.num 5) (J.obj [("followers_count", J.num 3)])
    (J.obj [("channel_id", J.num 5), ("followed", J.bool true)])
    "s" 3 true rfl rfl rfl rfl
  have h2 := c5_followers_updated_tracked
    (ClientState.mk [(J.num 5, J.obj [("followers_count", J.num 4)])])
    (J.num 5) (J.obj [("followers_count", J.num 4)])
    (J.obj [("channel_id", J.num 5), ("followed", J.bool false)])
    "s" 4 false rfl rfl rfl rfl
  exact ⟨h1.1.trans (by decide), h2.1.trans (by decide)⟩

/-- Claim C6: a `FollowersUpdated` frame whose `channel_id` is not a
tracked user fails with a `KeyError` that nothing catches: the two generic
notifications have already fired, no `follow`/`unfollow` notification is
dispatched, the state is unchanged, and the error propagates out of the
read loop to the caller rather than being swallowed. -/
theorem c6_followers_updated_untracked (st : ClientState) (cid data : J)
    (s : String) (rest : List RawFrame)
    (hcid : data.get? "channel_id" = some cid)
    (hu : lookupUser st.watchedUsers cid = none) :
    pollEvent st (RawFrame.ok "App\\Events\\FollowersUpdated" s data)
      = PollResult.mk
          [Dispatch.payloadReceive "App\\Events\\FollowersUpdated" data,
           Dispatch.rawPayloadReceive (rawOf "App\\Events\\FollowersUpdated" s)]
          st (some WsErr.keyError) ∧
    startLoop st (RawFrame.ok "App\\Events\\FollowersUpdated" s data :: rest)
      = ([Dispatch.payloadReceive "App\\Events\\FollowersUpdated" data,
          Dispatch.rawPayloadReceive (rawOf "App\\Events\\FollowersUpdated" s)],
         st, some WsErr.keyError) := by
  have hfu : followersUpdated st data = ([], st, some WsErr.keyError) := by
    simp [followersUpdated, hcid, hu]
  have hp : pollEvent st (RawFrame.ok "App\\Events\\FollowersUpdated" s data)
      = PollResult.mk
          [Dispatch.payloadReceive "App\\Events\\FollowersUpdated" data,
           Dispatch.rawPayloadReceive (rawOf "App\\Events\\FollowersUpdated" s)]
          st (some WsErr.keyError) := by
    show (⟨Dispatch.payloadReceive "App\\Events\\FollowersUpdated" data
        :: Dispatch.rawPayloadReceive (rawOf "App\\Events\\FollowersUpdated" s)
        :: (followersUpdated st data).1,
       (followersUpdated st data).2.1, (followersUpdated st data).2.2⟩ : PollResult) = _
    rw [hfu]
  refine ⟨hp, ?_⟩
  simp [startLoop, hp]

/-- Claim C6, witness: channel 9 with nothing tracked. -/
theorem c6_untracked_witness :
    pollEvent (ClientState.mk [])
        (RawFrame.ok "App\\Events\\FollowersUpdated" "s"
          (J.obj [("channel_id", J.num 9), ("followed", J.bool true)]))
      = PollResult.mk
          [Dispatch.payloadReceive "App\\Events\\FollowersUpdated"
             (J.obj [("channel_id", J.num 9), ("followed", J.bool true)]),
           Dispatch.rawPayloadReceive (rawOf "App\\Events\\FollowersUpdated" "s")]
          (ClientState.mk []) (some WsErr.keyError) ∧
    startLoop (ClientState.mk [])
        [RawFrame.ok "App\\Events\\FollowersUpdated" "s"
          (J.obj [("channel_id", J.num 9), ("followed", J.bool true)])]
      = ([Dispatch.payloadReceive "App\\Events\\FollowersUpdated"
            (J.obj [("channel_id", J.num 9), ("followed", J.bool true)]),
          Dispatch.rawPayloadReceive (rawOf "App\\Events\\FollowersUpdated" "s")],
         ClientState.mk [], some WsErr.keyError) :=
  c6_followers_updated_untracked (ClientState.mk []) (J.num 9)
    (J.obj [("channel_id", J.num 9), ("followed", J.bool true)]) "s" [] rfl rfl

/-- Claim C9: the follow/unfollow branch tests `data["followed"] is True`,
an identity test against the boolean `True`. Any other value — including
truthy non-booleans such as `1` — selects the else branch: the tracked
user's `followers_count` is decremented by 1 and `unfollow` is dispatched
carrying the mutated user. -/
theorem c9_non_true_followed_unfollow (st : ClientState) (cid u data f : J)
    (s : String) (n : Int)
    (hcid : data.get? "channel_id" = some cid)
    (hf : data.get? "followed" = some f)
    (hne : f ≠ J.bool true)
    (hu : lookupUser st.watchedUsers cid = some u)
    (hn : u.get? "followers_count" = some (J.num n)) :
    pollEvent st (RawFrame.ok "App\\Events\\FollowersUpdated" s data)
      = PollResult.mk
          [Dispatch.payloadReceive "App\\Events\\FollowersUpdated" data,
           Dispatch.rawPayloadReceive (rawOf "App\\Events\\FollowersUpdated" s),
           Dispatch.unfollow (setFollowers u (n - 1))]
          (ClientState.mk (setUser st.watchedUsers cid (setFollowers u (n - 1))))
          none ∧
    (setFollowers u (n - 1)).get? "followers_count" = some (J.num (n - 1)) := by
  have hsub : n + (-1 : Int) = n - 1 := by omega
  cases u with
  | null => simp [J.get?] at hn
  | bool c => simp [J.get?] at hn
  | num m => simp [J.get?] at hn
  | str t => simp [J.get?] at hn
  | arr xs => simp [J.get?] at hn
  | obj fs =>
    simp only [J.get?] at hn
    have hfu : followersUpdated st data
        = ([Dispatch.unfollow (setFollowers (J.obj fs) (n - 1))],
           ClientState.mk
             (setUser st.watchedUsers cid (setFollowers (J.obj fs) (n - 1))),
           none) := by
      simp [followersUpdated, hcid, hu, hf, if_neg hne, incFollowers, hn,
            setFollowers, hsub]
    refine ⟨?_, ?_⟩
    · show (⟨Dispatch.payloadReceive "App\\Events\\FollowersUpdated" data
          :: Dispatch.rawPayloadReceive (rawOf "App\\Events\\FollowersUpdated" s)
          :: (followersUpdated st data).1,
         (followersUpdated st data).2.1, (followersUpdated st data).2.2⟩ : PollResult) = _
      rw [hfu]
    · show J.get? (J.obj (setField fs "followers_count" (J.num (n - 1))))
          "followers_count" = _
      simp only [J.get?]
      exact lookupField_setField fs "followers_count" (J.num n) _ hn

/-- Claim C9, witness: `followed: 1` (a truthy non-boolean) against a
tracked user with `followers_count = 4` dispatches `unfollow` with the
counter at 3. -/
theorem c9_non_true_witness :
    pollEvent (ClientState.mk [(J.num 5, J.obj [("followers_count", J.num 4)])])
        (RawFrame.ok "App\\Events\\FollowersUpdated" "s"
          (J.obj [("channel_id", J.num 5), ("followed", J.num 1)]))
      = PollResult.mk
          [Dispatch.payloadReceive "App\\Events\\FollowersUpdated"
             (J.obj [("channel_id", J.num 5), ("followed", J.num 1)]),
           Dispatch.rawPayloadReceive (rawOf "App\\Events\\FollowersUpdated" "s"),
           Dispatch.unfollow (J.obj [("followers_count", J.num 3)])]
          (ClientState.mk [(J.num 5, J.obj [("followers_count", J.num 3)])])
          none := by
  have h := c9_non_true_followed_unfollow
    (ClientState.mk [(J.num 5, J.obj [("followers_count", J.num 4)])])
    (J.num 5) (J.obj [("followers_count", J.num 4)])
    (J.obj [("channel_id", J.num 5), ("followed", J.num 1)])
    (J.num 1) "s" 4 rfl rfl (by decide) rfl rfl
  exact h.1.trans (by decide)
